import Mathlib

/-!
Verification of the SORA density server (`server.py` and
`gdal-density-server/server.py`).

The program serves a `/query-density` endpoint: it turns a polygon into a
closed ring, masks two rasters with it (a continuous JRC census raster and a
categorical LUISA land-cover raster), reduces the masked pixel values to
density numbers, and reconciles them into one response.

Embedding choices:
* Pixel values (numpy floats) are modelled exactly as rationals, with a
  separate constructor for the non-finite floats (NaN, ±inf) that
  `np.isfinite` rejects; all arithmetic the code performs on valid pixels
  (max, mean, comparison, truncation to int) is exact on the values the
  rasters hold.
* The rasterio/shapely calls (`rasterio.open`, `mask`, `Polygon`,
  `mapping`, `transform_geom`) are external collaborators: a raster read is
  modelled by a `RasterRead` record carrying whether the path exists,
  whether opening/masking succeeded, and the resulting first-band pixel
  list (`out_image[0]`); a geometry is modelled by its coordinate ring (the
  argument the code passes to `Polygon`), and `_mask_with_reprojection` is
  modelled up to the choice of which geometry is handed to `mask`.
* Exceptions are modelled by `Except String`.
-/

/-- A `[lng, lat]` coordinate pair. -/
abbrev Point : Type := ℚ × ℚ

/-- A raster pixel value: either a finite number, or one of the floats
(NaN, +inf, -inf) on which `np.isfinite` is `False`. -/
inductive Pixel where
  | num (val : ℚ)
  | nonfinite
deriving DecidableEq

/-- One raster evaluation as seen by `query_density`: whether the raster
file exists at its configured path, whether `rasterio.open` +
`_mask_with_reprojection` succeeded (the `try` block reaching the pixel
computation), and the first band `out_image[0]` of the masked result. -/
structure RasterRead where
  present : Bool
  ok : Bool
  pixels : List Pixel
deriving DecidableEq

/-- The JSON body of a successful `/query-density` response. -/
structure Response where
  d_popmax : ℚ
  d_avg : ℚ
  d_jrc_max : ℚ
  d_luisa_conservative : ℚ
  luisa_class : Option Int
deriving DecidableEq

/-- The geometry that `_mask_with_reprojection` hands to `mask`: either the
incoming WGS84 geometry unchanged, or the result of
`transform_geom("EPSG:4326", target_crs, geom, precision=6)` (an external
coordinate transform, recorded symbolically with its target CRS). -/
inductive MaskedGeom where
  | asIs (g : List Point)
  | transformed (target_crs : String) (g : List Point)
deriving DecidableEq

deriving instance DecidableEq for Except

namespace Np

/-- `np.max` over a pixel array. `np.max` raises on an empty array; both
call sites guard with `valid.size > 0`, so the `[]` branch is never
reached (it returns a default 0). -/
def amax : List ℚ → ℚ
  | [] => 0
  | v :: vs => vs.foldl max v

/-- `np.mean` over a nonempty array: sum divided by length (exact on
rationals). Both call sites guard with `valid.size > 0`. -/
def mean (l : List ℚ) : ℚ := l.sum / (l.length : ℚ)

/-- `astype(int)` / `int(...)` on a float: C-style truncation toward
zero. -/
def truncInt (q : ℚ) : Int := if 0 ≤ q then ⌊q⌋ else ⌈q⌉

/-- Insert a value into a strictly increasing list, keeping it strictly
increasing (duplicates collapse). Helper for `Np.unique`. -/
def insertSorted (x : Int) : List Int → List Int
  | [] => [x]
  | y :: ys =>
    if x < y then x :: y :: ys
    else if x = y then y :: ys
    else y :: insertSorted x ys

/-- `np.unique`: the distinct values of the array, in ascending order. -/
def unique (l : List Int) : List Int :=
  l.foldl (fun acc x => insertSorted x acc) []

end Np

namespace Server

/-- `LUISA_DENSITY_MAP` of `src/server.py`: LUISA class code →
conservative density (hab/km²). -/
def LUISA_DENSITY_MAP : List (Int × Int) :=
  [ -- Urban fabric
    (1111, 5000),  -- High density urban fabric
    (1121, 2500),  -- Medium density urban fabric
    (1122, 1000),  -- Low density urban fabric
    (1123, 300),   -- Isolated or very low density urban fabric
    (1130, 200),   -- Urban vegetation
    (1410, 200),   -- Green urban areas
    (1421, 800),   -- Sport and leisure green
    (1422, 1200),  -- Sport and leisure built-up
    -- Industrial / transport / infrastructure
    (1210, 600),   -- Industrial or commercial units
    (1221, 200),   -- Road and rail networks and associated land
    (1222, 1200),  -- Major stations
    (1230, 600),   -- Port areas
    (1241, 300),   -- Airport areas
    (1242, 1500),  -- Airport terminals
    -- Extractive / degraded / construction
    (1310, 50),    -- Mineral extraction sites
    (1320, 10),    -- Dump sites
    (1330, 100),   -- Construction sites
    -- Agriculture
    (2110, 20),    -- Non irrigated arable land
    (2120, 20),    -- Permanently irrigated land
    (2130, 10),    -- Rice fields
    (2210, 15),    -- Vineyards
    (2220, 15),    -- Fruit trees and berry plantations
    (2230, 15),    -- Olive groves
    (2310, 15),    -- Pastures
    (2410, 15),    -- Annual crops associated with permanent crops
    (2420, 15),    -- Complex cultivation patterns
    (2430, 10),    -- Land principally occupied by agriculture
    (2440, 10),    -- Agro-forestry areas
    -- Forest / natural
    (3110, 5),     -- Broad-leaved forest
    (3120, 5),     -- Coniferous forest
    (3130, 5),     -- Mixed forest
    (3210, 5),     -- Natural grassland
    (3220, 2),     -- Moors and heathland
    (3230, 2),     -- Sclerophyllous vegetation
    (3240, 2),     -- Transitional woodland shrub
    (3310, 2),     -- Beaches, dunes and sand plains
    (3320, 1),     -- Bare rock
    (3330, 1),     -- Sparsely vegetated areas
    (3340, 1),     -- Burnt areas
    (3350, 0),     -- Glaciers and perpetual snow
    -- Wetlands / water
    (4000, 0),     -- Wetlands
    (5110, 0),     -- Water courses
    (5120, 0),     -- Water bodies
    (5210, 0),     -- Coastal lagoons
    (5220, 0),     -- Estuaries
    (5230, 0) ]    -- Sea and ocean

/-- The message of the `ValueError` raised on invalid polygon input (the
spec's `InvalidInputError`). -/
def polyInvalidMsg : String := "Poligono invalido: requiere >= 3 puntos"

/-- `values[np.isfinite(values) & (values > 0)]`: the valid pixels, i.e.
the finite values strictly greater than zero, in array order. -/
def validPixels (values : List Pixel) : List ℚ :=
  values.filterMap fun p =>
    match p with
    | .num v => if 0 < v then some v else none
    | .nonfinite => none

/-- `_polygon_to_geojson` up to the shapely calls: `None` or fewer than 3
points raises `ValueError`; otherwise the ring is closed by appending a
copy of the first point when first and last differ. The returned ring is
the coordinate list handed to `Polygon(...)`; the subsequent
`Polygon` / `is_valid` / `buffer(0)` / `mapping` steps are deterministic
functions of this ring performed by shapely (an external collaborator), so
equal rings yield equal geometries. Python's `coords + [coords[0]]` builds
a fresh list; the input is never mutated. -/
def _polygon_to_geojson (polygon_coords : Option (List Point)) :
    Except String (List Point) :=
  match polygon_coords with
  | none => .error polyInvalidMsg
  | some cs =>
    if cs.length < 3 then .error polyInvalidMsg
    else
      let closed := if cs.head? ≠ cs.getLast? then cs ++ cs.take 1 else cs
      .ok closed

/-- `_mask_with_reprojection` up to the `mask` call: the function returns
which geometry is handed to `mask(src, [geom], crop=True)`. `src_crs` is
`src.crs.to_string()` when the raster has a CRS, `none` when `src.crs is
None`. -/
def _mask_with_reprojection (src_crs : Option String)
    (geom_wgs84 : List Point) : MaskedGeom :=
  match src_crs with
  | none => .asIs geom_wgs84
  | some raster_crs =>
    if raster_crs = "EPSG:4326" ∨ raster_crs = "WGS84" then .asIs geom_wgs84
    else .transformed raster_crs geom_wgs84

/-- The JRC reduction (lines 159-171): `(d_jrc_max, d_jrc_avg)` stay at
their `(0.0, 0.0)` defaults unless there are valid pixels, in which case
they become `np.max` and `np.mean` of the valid pixels. -/
def continuous_stats (values : List Pixel) : ℚ × ℚ :=
  match validPixels values with
  | [] => (0, 0)
  | v :: vs => (Np.amax (v :: vs), Np.mean (v :: vs))

/-- The LUISA reduction (lines 176-194): with no valid pixel the defaults
`(0.0, None)` stand. Otherwise the valid pixels are cast to int classes;
`np.unique(..., return_counts=True)` lists the distinct classes in
ascending order with their counts, and `np.argmax(counts)` picks the first
index at which the maximal count occurs — equivalently the first (hence
smallest) class of the sorted unique list whose count is maximal. The
conservative max folds `max` over `LUISA_DENSITY_MAP.get(int(cls), 0)` for
every distinct class, starting from the 0.0 default. -/
def categorical_conservative (values : List Pixel)
    (lookup : List (Int × Int)) : ℚ × Option Int :=
  match validPixels values with
  | [] => (0, none)
  | v :: vs =>
    let ints := (v :: vs).map Np.truncInt
    let uniq := Np.unique ints
    let dominant :=
      uniq.find? fun u => uniq.all fun w => ints.count w ≤ ints.count u
    let d_luisa_max :=
      uniq.foldl
        (fun acc cls => max acc (((lookup.lookup cls).getD 0 : Int) : ℚ)) 0
    (d_luisa_max, dominant)

/-- Line 198: `d_popmax = max(d_jrc_max, d_luisa_max)`. Pure and total. -/
def reconcile (continuous_max categorical_conservative_max : ℚ) : ℚ :=
  max continuous_max categorical_conservative_max

/-- The body of `query_density`, with the density lookup table abstracted
(the source reads the module-global `LUISA_DENSITY_MAP`). A raster
contributes its reduction only when its file exists and its `try` block
reaches the pixel computation; a missing file or a caught exception leaves
the zero/null defaults. A polygon-validation error escapes to the request
boundary (a 500 response carrying the message). -/
def query_density_with (lut : List (Int × Int))
    (polygon : Option (List Point)) (jrc luisa : RasterRead) :
    Except String Response :=
  match _polygon_to_geojson polygon with
  | .error e => .error e
  | .ok _geom_wgs84 =>
    let jrcStats :=
      if jrc.present && jrc.ok then continuous_stats jrc.pixels
      else ((0 : ℚ), (0 : ℚ))
    let luisaStats :=
      if luisa.present && luisa.ok then
        categorical_conservative luisa.pixels lut
      else ((0 : ℚ), (none : Option Int))
    .ok
      { d_popmax := reconcile jrcStats.1 luisaStats.1
        d_avg := jrcStats.2
        d_jrc_max := jrcStats.1
        d_luisa_conservative := luisaStats.1
        luisa_class := luisaStats.2 }

/-- `query_density` of `src/server.py`: the body instantiated with its
module's `LUISA_DENSITY_MAP`. -/
def query_density (polygon : Option (List Point))
    (jrc luisa : RasterRead) : Except String Response :=
  query_density_with LUISA_DENSITY_MAP polygon jrc luisa

end Server

namespace GdalServer

/-- `LUISA_DENSITY_MAP` of `src/gdal-density-server/server.py` (the older
classification scheme): LUISA class code → conservative density
(hab/km²). -/
def LUISA_DENSITY_MAP : List (Int × Int) :=
  [ (1, 50),      -- Continuous urban fabric
    (2, 200),     -- Dense discontinuous urban fabric
    (3, 100),     -- Medium discontinuous urban fabric
    (4, 50),      -- Low discontinuous urban fabric
    (5, 20),      -- Industrial/commercial
    (6, 5000) ]   -- Sport/leisure facilities

/-- The `ValueError` message of the second file (identical text). -/
def polyInvalidMsg : String := "Poligono invalido: requiere >= 3 puntos"

/-- `values[np.isfinite(values) & (values > 0)]` of the second file. -/
def validPixels (values : List Pixel) : List ℚ :=
  values.filterMap fun p =>
    match p with
    | .num v => if 0 < v then some v else none
    | .nonfinite => none

/-- `_polygon_to_geojson` of the second file (textually identical to the
first file's). -/
def _polygon_to_geojson (polygon_coords : Option (List Point)) :
    Except String (List Point) :=
  match polygon_coords with
  | none => .error polyInvalidMsg
  | some cs =>
    if cs.length < 3 then .error polyInvalidMsg
    else
      let closed := if cs.head? ≠ cs.getLast? then cs ++ cs.take 1 else cs
      .ok closed

/-- `_mask_with_reprojection` of the second file (textually identical). -/
def _mask_with_reprojection (src_crs : Option String)
    (geom_wgs84 : List Point) : MaskedGeom :=
  match src_crs with
  | none => .asIs geom_wgs84
  | some raster_crs =>
    if raster_crs = "EPSG:4326" ∨ raster_crs = "WGS84" then .asIs geom_wgs84
    else .transformed raster_crs geom_wgs84

/-- The JRC reduction of the second file (lines 107-120, textually
identical). -/
def continuous_stats (values : List Pixel) : ℚ × ℚ :=
  match validPixels values with
  | [] => (0, 0)
  | v :: vs => (Np.amax (v :: vs), Np.mean (v :: vs))

/-- The LUISA reduction of the second file (lines 124-143, textually
identical; only the module-global lookup it is fed differs). -/
def categorical_conservative (values : List Pixel)
    (lookup : List (Int × Int)) : ℚ × Option Int :=
  match validPixels values with
  | [] => (0, none)
  | v :: vs =>
    let ints := (v :: vs).map Np.truncInt
    let uniq := Np.unique ints
    let dominant :=
      uniq.find? fun u => uniq.all fun w => ints.count w ≤ ints.count u
    let d_luisa_max :=
      uniq.foldl
        (fun acc cls => max acc (((lookup.lookup cls).getD 0 : Int) : ℚ)) 0
    (d_luisa_max, dominant)

/-- Line 147 of the second file: `d_popmax = max(d_jrc_max, d_luisa_max)`. -/
def reconcile (continuous_max categorical_conservative_max : ℚ) : ℚ :=
  max continuous_max categorical_conservative_max

/-- The body of the second file's `query_density` with the lookup table
abstracted. -/
def query_density_with (lut : List (Int × Int))
    (polygon : Option (List Point)) (jrc luisa : RasterRead) :
    Except String Response :=
  match _polygon_to_geojson polygon with
  | .error e => .error e
  | .ok _geom_wgs84 =>
    let jrcStats :=
      if jrc.present && jrc.ok then continuous_stats jrc.pixels
      else ((0 : ℚ), (0 : ℚ))
    let luisaStats :=
      if luisa.present && luisa.ok then
        categorical_conservative luisa.pixels lut
      else ((0 : ℚ), (none : Option Int))
    .ok
      { d_popmax := reconcile jrcStats.1 luisaStats.1
        d_avg := jrcStats.2
        d_jrc_max := jrcStats.1
        d_luisa_conservative := luisaStats.1
        luisa_class := luisaStats.2 }

/-- `query_density` of `src/gdal-density-server/server.py`: the body
instantiated with its module's `LUISA_DENSITY_MAP`. -/
def query_density (polygon : Option (List Point))
    (jrc luisa : RasterRead) : Except String Response :=
  query_density_with LUISA_DENSITY_MAP polygon jrc luisa

end GdalServer

namespace Facts

/-! Auxiliary lemmas about the list folds the embedding uses. -/

lemma le_foldl_max (l : List ℚ) (a : ℚ) : a ≤ l.foldl max a := by
  induction l generalizing a with
  | nil => exact le_refl a
  | cons x xs ih =>
    exact le_trans (le_max_left a x) (ih (max a x))

lemma mem_le_foldl_max (l : List ℚ) (a x : ℚ) (hx : x ∈ l) :
    x ≤ l.foldl max a := by
  induction l generalizing a with
  | nil => cases hx
  | cons y ys ih =>
    rcases List.mem_cons.mp hx with h | h
    · subst h
      exact le_trans (le_max_right a x) (le_foldl_max ys (max a x))
    · exact ih (max a y) h

lemma foldl_max_mem (l : List ℚ) (a : ℚ) :
    l.foldl max a = a ∨ l.foldl max a ∈ l := by
  induction l generalizing a with
  | nil => exact Or.inl rfl
  | cons x xs ih =>
    rcases ih (max a x) with h | h
    · rcases max_choice a x with hm | hm
      · exact Or.inl (by rw [List.foldl_cons, h, hm])
      · exact Or.inr (by rw [List.foldl_cons, h, hm]; exact List.mem_cons_self x xs)
    · exact Or.inr (List.mem_cons_of_mem x h)

lemma amax_mem (v : ℚ) (vs : List ℚ) : Np.amax (v :: vs) ∈ v :: vs := by
  rcases foldl_max_mem vs v with h | h
  · rw [Np.amax, h]; exact List.mem_cons_self v vs
  · exact List.mem_cons_of_mem v h

lemma le_amax (v x : ℚ) (vs : List ℚ) (hx : x ∈ v :: vs) :
    x ≤ Np.amax (v :: vs) := by
  rcases List.mem_cons.mp hx with h | h
  · subst h; exact le_foldl_max vs x
  · exact mem_le_foldl_max vs v x h

lemma sum_le_length_mul (l : List ℚ) (m : ℚ) (h : ∀ x ∈ l, x ≤ m) :
    l.sum ≤ (l.length : ℚ) * m := by
  induction l with
  | nil => simp
  | cons x xs ih =>
    rw [List.sum_cons, List.length_cons]
    push_cast
    have hx := h x (List.mem_cons_self x xs)
    have hxs := ih (fun y hy => h y (List.mem_cons_of_mem x hy))
    calc x + xs.sum ≤ m + (xs.length : ℚ) * m := add_le_add hx hxs
    _ = ((xs.length : ℚ) + 1) * m := by ring

lemma list_sum_nonneg (l : List ℚ) (h : ∀ x ∈ l, 0 ≤ x) : 0 ≤ l.sum := by
  induction l with
  | nil => simp
  | cons x xs ih =>
    rw [List.sum_cons]
    exact add_nonneg (h x (List.mem_cons_self x xs))
      (ih fun y hy => h y (List.mem_cons_of_mem x hy))

lemma mean_le_amax (v : ℚ) (vs : List ℚ) :
    Np.mean (v :: vs) ≤ Np.amax (v :: vs) := by
  have hlen : (0 : ℚ) < ((v :: vs).length : ℚ) := by
    rw [List.length_cons]; push_cast; positivity
  rw [Np.mean, div_le_iff₀ hlen]
  have := sum_le_length_mul (v :: vs) (Np.amax (v :: vs))
    (fun x hx => le_amax v x vs hx)
  linarith [this]

lemma mean_nonneg (l : List ℚ) (h : ∀ x ∈ l, 0 ≤ x) : 0 ≤ Np.mean l := by
  rw [Np.mean]
  exact div_nonneg (list_sum_nonneg l h) (by positivity)

lemma le_foldl_max_comp (g : Int → ℚ) (l : List Int) (a : ℚ) :
    a ≤ l.foldl (fun acc c => max acc (g c)) a := by
  induction l generalizing a with
  | nil => exact le_refl a
  | cons x xs ih =>
    exact le_trans (le_max_left a (g x)) (ih (max a (g x)))

lemma mem_validPixels (values : List Pixel) (x : ℚ) :
    x ∈ Server.validPixels values ↔ Pixel.num x ∈ values ∧ 0 < x := by
  simp only [Server.validPixels, List.mem_filterMap]
  constructor
  · rintro ⟨p, hp, hf⟩
    cases p with
    | num v =>
      have hf' : (if 0 < v then some v else none) = some x := hf
      by_cases hv : 0 < v
      · rw [if_pos hv, Option.some.injEq] at hf'
        subst hf'; exact ⟨hp, hv⟩
      · rw [if_neg hv] at hf'; cases hf'
    | nonfinite =>
      have hf' : (none : Option ℚ) = some x := hf
      cases hf'
  · rintro ⟨hp, hx⟩
    exact ⟨Pixel.num x, hp,
      show (if 0 < x then some x else none) = some x by rw [if_pos hx]⟩

lemma validPixels_pos (values : List Pixel) (x : ℚ)
    (hx : x ∈ Server.validPixels values) : 0 < x :=
  ((mem_validPixels values x).mp hx).2

lemma mem_insertSorted (x y : Int) (l : List Int) :
    y ∈ Np.insertSorted x l ↔ y = x ∨ y ∈ l := by
  induction l with
  | nil => simp [Np.insertSorted]
  | cons z zs ih =>
    rw [Np.insertSorted]
    by_cases h1 : x < z
    · rw [if_pos h1]
      simp [List.mem_cons]
    · rw [if_neg h1]
      by_cases h2 : x = z
      · subst h2
        rw [if_pos rfl]
        simp [List.mem_cons]
      · rw [if_neg h2, List.mem_cons, List.mem_cons, ih]
        tauto

lemma sorted_insertSorted (x : Int) (l : List Int)
    (hl : l.Sorted (· < ·)) : (Np.insertSorted x l).Sorted (· < ·) := by
  induction l with
  | nil => simp [Np.insertSorted]
  | cons z zs ih =>
    rw [List.sorted_cons] at hl
    obtain ⟨hz, hzs⟩ := hl
    rw [Np.insertSorted]
    by_cases h1 : x < z
    · rw [if_pos h1, List.sorted_cons]
      refine ⟨?_, ?_⟩
      · intro b hb
        rcases List.mem_cons.mp hb with rfl | hb
        · exact h1
        · exact lt_trans h1 (hz b hb)
      · rw [List.sorted_cons]; exact ⟨hz, hzs⟩
    · rw [if_neg h1]
      by_cases h2 : x = z
      · rw [if_pos h2, List.sorted_cons]; exact ⟨hz, hzs⟩
      · rw [if_neg h2, List.sorted_cons]
        have hzx : z < x := by omega
        refine ⟨?_, ih hzs⟩
        intro b hb
        rcases (mem_insertSorted x b zs).mp hb with rfl | hb
        · exact hzx
        · exact hz b hb

lemma sorted_unique_aux (l acc : List Int) (hacc : acc.Sorted (· < ·)) :
    (l.foldl (fun acc x => Np.insertSorted x acc) acc).Sorted (· < ·) := by
  induction l generalizing acc with
  | nil => exact hacc
  | cons x xs ih => exact ih _ (sorted_insertSorted x acc hacc)

lemma sorted_unique (l : List Int) : (Np.unique l).Sorted (· < ·) :=
  sorted_unique_aux l [] (by simp)

lemma mem_unique_aux (l : List Int) (y : Int) (acc : List Int) :
    y ∈ l.foldl (fun acc x => Np.insertSorted x acc) acc ↔
    y ∈ acc ∨ y ∈ l := by
  induction l generalizing acc with
  | nil => simp
  | cons x xs ih =>
    rw [List.foldl_cons, ih, mem_insertSorted, List.mem_cons]
    tauto

lemma mem_unique (l : List Int) (y : Int) : y ∈ Np.unique l ↔ y ∈ l := by
  rw [Np.unique, mem_unique_aux]
  simp

lemma exists_count_max (l : List Int) (f : Int → ℕ) (hl : l ≠ []) :
    ∃ u ∈ l, ∀ w ∈ l, f w ≤ f u := by
  induction l with
  | nil => exact absurd rfl hl
  | cons x xs ih =>
    cases xs with
    | nil =>
      refine ⟨x, List.mem_cons_self x [], ?_⟩
      intro w hw
      rcases List.mem_cons.mp hw with rfl | hw
      · exact le_refl _
      · cases hw
    | cons y ys =>
      obtain ⟨u, hu, hmax⟩ := ih (by simp)
      by_cases h : f u ≤ f x
      · refine ⟨x, List.mem_cons_self _ _, ?_⟩
        intro w hw
        rcases List.mem_cons.mp hw with rfl | hw
        · exact le_refl _
        · exact le_trans (hmax w hw) h
      · refine ⟨u, List.mem_cons_of_mem x hu, ?_⟩
        intro w hw
        rcases List.mem_cons.mp hw with rfl | hw
        · omega
        · exact hmax w hw

lemma find?_sorted_le (p : Int → Bool) (l : List Int)
    (hl : l.Sorted (· < ·)) (a : Int) (ha : l.find? p = some a) :
    ∀ b ∈ l, p b = true → a ≤ b := by
  induction l with
  | nil => cases ha
  | cons x xs ih =>
    rw [List.sorted_cons] at hl
    obtain ⟨hx, hxs⟩ := hl
    by_cases hpx : p x = true
    · rw [List.find?_cons_of_pos _ hpx, Option.some.injEq] at ha
      subst ha
      intro b hb _
      rcases List.mem_cons.mp hb with rfl | hb
      · exact le_refl _
      · exact le_of_lt (hx b hb)
    · rw [List.find?_cons_of_neg _ hpx] at ha
      intro b hb hpb
      rcases List.mem_cons.mp hb with rfl | hb
      · exact absurd hpb hpx
      · exact ih hxs ha b hb hpb

lemma continuous_stats_empty (values : List Pixel)
    (h : Server.validPixels values = []) :
    Server.continuous_stats values = (0, 0) := by
  simp [Server.continuous_stats, h]

lemma continuous_stats_cons (values : List Pixel) (v : ℚ) (vs : List ℚ)
    (h : Server.validPixels values = v :: vs) :
    Server.continuous_stats values = (Np.amax (v :: vs), Np.mean (v :: vs)) := by
  simp [Server.continuous_stats, h]

lemma continuous_stats_bounds (values : List Pixel) :
    0 ≤ (Server.continuous_stats values).1 ∧
    0 ≤ (Server.continuous_stats values).2 ∧
    (Server.continuous_stats values).2 ≤ (Server.continuous_stats values).1 := by
  cases h : Server.validPixels values with
  | nil => rw [continuous_stats_empty values h]; norm_num
  | cons v vs =>
    rw [continuous_stats_cons values v vs h]
    have hpos : ∀ x ∈ v :: vs, 0 ≤ x := by
      intro x hx
      refine le_of_lt (validPixels_pos values x ?_)
      rw [h]; exact hx
    exact ⟨hpos _ (amax_mem v vs), mean_nonneg _ hpos, mean_le_amax v vs⟩

lemma categorical_conservative_empty (values : List Pixel)
    (lut : List (Int × Int)) (h : Server.validPixels values = []) :
    Server.categorical_conservative values lut = (0, none) := by
  simp [Server.categorical_conservative, h]

lemma categorical_conservative_fst_nonneg (values : List Pixel)
    (lut : List (Int × Int)) :
    0 ≤ (Server.categorical_conservative values lut).1 := by
  cases h : Server.validPixels values with
  | nil => simp [Server.categorical_conservative, h]
  | cons v vs =>
    simp only [Server.categorical_conservative, h]
    exact le_foldl_max_comp
      (fun cls => (((lut.lookup cls).getD 0 : Int) : ℚ)) _ 0

lemma categorical_conservative_snd_lut_indep (values : List Pixel)
    (l1 l2 : List (Int × Int)) :
    (Server.categorical_conservative values l1).2 =
    (Server.categorical_conservative values l2).2 := by
  cases h : Server.validPixels values with
  | nil => simp [Server.categorical_conservative, h]
  | cons v vs => simp [Server.categorical_conservative, h]

lemma query_density_with_ok (lut : List (Int × Int))
    (polygon : Option (List Point)) (jrc luisa : RasterRead) (r : Response)
    (h : Server.query_density_with lut polygon jrc luisa = .ok r) :
    r.d_popmax = Server.reconcile r.d_jrc_max r.d_luisa_conservative ∧
    ((r.d_jrc_max, r.d_avg) = ((0 : ℚ), (0 : ℚ)) ∨
      (r.d_jrc_max, r.d_avg) = Server.continuous_stats jrc.pixels) ∧
    ((r.d_luisa_conservative, r.luisa_class) = ((0 : ℚ), (none : Option Int)) ∨
      (r.d_luisa_conservative, r.luisa_class) =
        Server.categorical_conservative luisa.pixels lut) := by
  unfold Server.query_density_with at h
  cases hp : Server._polygon_to_geojson polygon with
  | error e =>
    rw [hp] at h
    exact absurd h (by simp)
  | ok g =>
    rw [hp] at h
    simp only [Except.ok.injEq] at h
    subst h
    refine ⟨rfl, ?_, ?_⟩
    · by_cases hj : (jrc.present && jrc.ok) = true
      · right
        simp [hj]
      · left
        simp [hj]
    · by_cases hl : (luisa.present && luisa.ok) = true
      · right
        simp [hl]
      · left
        simp [hl]

lemma dominant_spec (values : List Pixel) (lut : List (Int × Int)) (d : Int)
    (hd : (Server.categorical_conservative values lut).2 = some d) :
    d ∈ (Server.validPixels values).map Np.truncInt ∧
    (∀ c ∈ (Server.validPixels values).map Np.truncInt,
      ((Server.validPixels values).map Np.truncInt).count c ≤
        ((Server.validPixels values).map Np.truncInt).count d) ∧
    (∀ c ∈ (Server.validPixels values).map Np.truncInt,
      ((Server.validPixels values).map Np.truncInt).count c =
        ((Server.validPixels values).map Np.truncInt).count d → d ≤ c) := by
  cases h : Server.validPixels values with
  | nil =>
    rw [categorical_conservative_empty values lut h] at hd
    cases hd
  | cons v vs =>
    simp only [Server.categorical_conservative, h] at hd
    have hmem : d ∈ Np.unique ((v :: vs).map Np.truncInt) :=
      List.mem_of_find?_eq_some hd
    have hpred := List.find?_some hd
    rw [List.all_eq_true] at hpred
    have hmax : ∀ w ∈ Np.unique ((v :: vs).map Np.truncInt),
        ((v :: vs).map Np.truncInt).count w ≤
          ((v :: vs).map Np.truncInt).count d := by
      intro w hw
      exact of_decide_eq_true (hpred w hw)
    refine ⟨(mem_unique _ d).mp hmem, ?_, ?_⟩
    · intro c hc
      exact hmax c ((mem_unique _ c).mpr hc)
    · intro c hc hcount
      have hcmem : c ∈ Np.unique ((v :: vs).map Np.truncInt) :=
        (mem_unique _ c).mpr hc
      have hpc : ((Np.unique ((v :: vs).map Np.truncInt)).all
          fun w => decide (((v :: vs).map Np.truncInt).count w ≤
            ((v :: vs).map Np.truncInt).count c)) = true := by
        rw [List.all_eq_true]
        intro w hw
        exact decide_eq_true (hcount ▸ hmax w hw)
      exact find?_sorted_le _ _ (sorted_unique _) d hd c hcmem hpc

lemma query_density_with_error (lut : List (Int × Int))
    (polygon : Option (List Point)) (jrc luisa : RasterRead) (e : String)
    (h : Server._polygon_to_geojson polygon = .error e) :
    Server.query_density_with lut polygon jrc luisa = .error e := by
  unfold Server.query_density_with
  rw [h]

lemma query_density_with_lut_proj (l1 l2 : List (Int × Int))
    (polygon : Option (List Point)) (jrc luisa : RasterRead) :
    (Server.query_density_with l1 polygon jrc luisa).map
        (fun r => (r.d_jrc_max, r.d_avg, r.luisa_class)) =
      (Server.query_density_with l2 polygon jrc luisa).map
        (fun r => (r.d_jrc_max, r.d_avg, r.luisa_class)) := by
  unfold Server.query_density_with
  cases hp : Server._polygon_to_geojson polygon with
  | error e => rfl
  | ok g =>
    simp only [Except.map, Except.ok.injEq, Prod.mk.injEq]
    refine ⟨trivial, trivial, ?_⟩
    by_cases hc : (luisa.present && luisa.ok) = true
    · rw [if_pos hc, if_pos hc]
      exact categorical_conservative_snd_lut_indep luisa.pixels l1 l2
    · rw [if_neg hc, if_neg hc]

lemma query_density_with_popmax (lut : List (Int × Int))
    (polygon : Option (List Point)) (jrc luisa : RasterRead) :
    (Server.query_density_with lut polygon jrc luisa).map
        (fun r => r.d_popmax) =
      (Server.query_density_with lut polygon jrc luisa).map
        (fun r => Server.reconcile r.d_jrc_max r.d_luisa_conservative) := by
  unfold Server.query_density_with
  cases hp : Server._polygon_to_geojson polygon with
  | error e => rfl
  | ok g => rfl

end Facts

/-- C1: the reconciler returns the maximum of the continuous max and the
categorical conservative max — in every 200 response `d_popmax` is
`max(d_jrc_max, d_luisa_conservative)` — and `reconcile(30, 5000) = 5000`,
`reconcile(0, 0) = 0`. `reconcile` is a total pure function of its two
arguments (no side effects, no failure modes). -/
theorem C1_reconcile_is_overall_max :
    (∀ a b : ℚ, Server.reconcile a b = max a b) ∧
    Server.reconcile 30 5000 = 5000 ∧
    Server.reconcile 0 0 = 0 ∧
    (∀ (polygon : Option (List Point)) (jrc luisa : RasterRead)
      (r : Response),
      Server.query_density polygon jrc luisa = .ok r →
      r.d_popmax = max r.d_jrc_max r.d_luisa_conservative) := by
  refine ⟨fun a b => rfl, ?_, ?_, ?_⟩
  · exact max_eq_right (by norm_num)
  · exact max_self 0
  · intro p j l r h
    exact (Facts.query_density_with_ok Server.LUISA_DENSITY_MAP p j l r h).1

/-- Witness for C1: a concrete request (triangle polygon, JRC raster
absent, LUISA raster with one 1111 pixel) whose 200 response has
`d_popmax = max(d_jrc_max, d_luisa_conservative)`. -/
theorem C1_reconcile_is_overall_max_witness :
    Server.query_density (some [(0, 0), (1, 0), (0, 1)])
        ⟨false, false, []⟩ ⟨true, true, [Pixel.num 1111]⟩ =
      .ok ⟨5000, 0, 0, 5000, some 1111⟩ ∧
    (5000 : ℚ) = max (0 : ℚ) (5000 : ℚ) :=
  ⟨by decide,
    C1_reconcile_is_overall_max.2.2.2 (some [(0, 0), (1, 0), (0, 1)])
      ⟨false, false, []⟩ ⟨true, true, [Pixel.num 1111]⟩
      ⟨5000, 0, 0, 5000, some 1111⟩ (by decide)⟩

/-- C2: `continuous_stats` computes `(max, mean)` over exactly the valid
pixels — a pixel is valid iff it is finite and strictly greater than
zero — its max is a valid pixel bounding all of them and its mean is their
sum over their number; with no valid pixel it returns `(0.0, 0.0)`; and on
`[10, 20, 30, -5, 0]` it returns `(30.0, 20.0)`. -/
theorem C2_continuous_stats_spec :
    (∀ (values : List Pixel) (x : ℚ),
      x ∈ Server.validPixels values ↔ Pixel.num x ∈ values ∧ 0 < x) ∧
    (∀ values : List Pixel, Server.validPixels values = [] →
      Server.continuous_stats values = (0, 0)) ∧
    (∀ values : List Pixel, Server.validPixels values ≠ [] →
      (Server.continuous_stats values).1 ∈ Server.validPixels values ∧
      (∀ x ∈ Server.validPixels values,
        x ≤ (Server.continuous_stats values).1) ∧
      (Server.continuous_stats values).2 =
        (Server.validPixels values).sum /
          ((Server.validPixels values).length : ℚ)) ∧
    Server.continuous_stats
        [Pixel.num 10, Pixel.num 20, Pixel.num 30, Pixel.num (-5),
          Pixel.num 0] = (30, 20) := by
  refine ⟨Facts.mem_validPixels, Facts.continuous_stats_empty, ?_, ?_⟩
  · intro values hne
    cases h : Server.validPixels values with
    | nil => exact absurd h hne
    | cons v vs =>
      rw [Facts.continuous_stats_cons values v vs h]
      exact ⟨Facts.amax_mem v vs, fun x hx => Facts.le_amax v x vs hx, rfl⟩
  · have h : Server.validPixels
        [Pixel.num 10, Pixel.num 20, Pixel.num 30, Pixel.num (-5),
          Pixel.num 0] = [10, 20, 30] := by decide
    rw [Facts.continuous_stats_cons _ 10 [20, 30] h]
    norm_num [Np.amax, Np.mean, max_def]

/-- Witness for C2: the valid pixels of `[10, 20, 30, -5, 0]` are
nonempty, and the theorem's max/mean characterization holds there. -/
theorem C2_continuous_stats_spec_witness :
    Server.validPixels
        [Pixel.num 10, Pixel.num 20, Pixel.num 30, Pixel.num (-5),
          Pixel.num 0] ≠ [] ∧
    ((Server.continuous_stats
        [Pixel.num 10, Pixel.num 20, Pixel.num 30, Pixel.num (-5),
          Pixel.num 0]).1 ∈
      Server.validPixels
        [Pixel.num 10, Pixel.num 20, Pixel.num 30, Pixel.num (-5),
          Pixel.num 0] ∧
      (∀ x ∈ Server.validPixels
          [Pixel.num 10, Pixel.num 20, Pixel.num 30, Pixel.num (-5),
            Pixel.num 0],
        x ≤ (Server.continuous_stats
          [Pixel.num 10, Pixel.num 20, Pixel.num 30, Pixel.num (-5),
            Pixel.num 0]).1) ∧
      (Server.continuous_stats
          [Pixel.num 10, Pixel.num 20, Pixel.num 30, Pixel.num (-5),
            Pixel.num 0]).2 =
        (Server.validPixels
            [Pixel.num 10, Pixel.num 20, Pixel.num 30, Pixel.num (-5),
              Pixel.num 0]).sum /
          ((Server.validPixels
              [Pixel.num 10, Pixel.num 20, Pixel.num 30, Pixel.num (-5),
                Pixel.num 0]).length : ℚ)) :=
  ⟨by decide,
    C2_continuous_stats_spec.2.2.1
      [Pixel.num 10, Pixel.num 20, Pixel.num 30, Pixel.num (-5),
        Pixel.num 0] (by decide)⟩

/-- C3: `categorical_conservative` on pixel values
`[1111, 1111, 1121, 3350]` with the supplied lookup returns dominant
class 1111 and conservative max 5000; the lookup values of the three
distinct classes present are 5000, 2500 and 0. -/
theorem C3_categorical_conservative_example :
    Server.categorical_conservative
        [Pixel.num 1111, Pixel.num 1111, Pixel.num 1121, Pixel.num 3350]
        Server.LUISA_DENSITY_MAP = (5000, some 1111) ∧
    ((Server.LUISA_DENSITY_MAP.lookup 1111).getD 0 = 5000 ∧
      (Server.LUISA_DENSITY_MAP.lookup 1121).getD 0 = 2500 ∧
      (Server.LUISA_DENSITY_MAP.lookup 3350).getD 0 = 0) := by
  decide

/-- C4: with no valid pixel the LUISA reduction keeps its defaults,
`(0.0, None)`; in any 200 response built from such a LUISA read,
`d_luisa_conservative = 0.0` and `luisa_class = null`. -/
theorem C4_no_valid_pixels_defaults :
    (∀ (values : List Pixel) (lut : List (Int × Int)),
      Server.validPixels values = [] →
      Server.categorical_conservative values lut = (0, none)) ∧
    (∀ (polygon : Option (List Point)) (jrc luisa : RasterRead)
      (r : Response),
      Server.validPixels luisa.pixels = [] →
      Server.query_density polygon jrc luisa = .ok r →
      r.d_luisa_conservative = 0 ∧ r.luisa_class = none) := by
  refine ⟨fun values lut h => Facts.categorical_conservative_empty values lut h, ?_⟩
  intro p j l r hval h
  rcases (Facts.query_density_with_ok Server.LUISA_DENSITY_MAP p j l r h).2.2
    with hz | hc
  · have h1 : r.d_luisa_conservative = 0 := congrArg Prod.fst hz
    have h2 : r.luisa_class = none := congrArg Prod.snd hz
    exact ⟨h1, h2⟩
  · rw [Facts.categorical_conservative_empty l.pixels _ hval] at hc
    have h1 : r.d_luisa_conservative = 0 := congrArg Prod.fst hc
    have h2 : r.luisa_class = none := congrArg Prod.snd hc
    exact ⟨h1, h2⟩

/-- Witness for C4: `[-3, NaN]` has no valid pixel, and the reduction on
it returns `(0.0, None)`. -/
theorem C4_no_valid_pixels_defaults_witness :
    Server.validPixels [Pixel.num (-3), Pixel.nonfinite] = [] ∧
    Server.categorical_conservative [Pixel.num (-3), Pixel.nonfinite]
      Server.LUISA_DENSITY_MAP = (0, none) :=
  ⟨by decide,
    C4_no_valid_pixels_defaults.1 [Pixel.num (-3), Pixel.nonfinite]
      Server.LUISA_DENSITY_MAP (by decide)⟩

/-- C5: whenever a dominant class is returned, it is a class of the
(int-cast) valid pixels whose pixel count is maximal, and among all
classes tied for that maximal count it is the smallest class code (the
first one in the ascending enumeration `np.unique` produces, at the first
maximal index `np.argmax` returns). -/
theorem C5_dominant_class_tie_break :
    ∀ (values : List Pixel) (lut : List (Int × Int)) (d : Int),
      (Server.categorical_conservative values lut).2 = some d →
      d ∈ (Server.validPixels values).map Np.truncInt ∧
      (∀ c ∈ (Server.validPixels values).map Np.truncInt,
        ((Server.validPixels values).map Np.truncInt).count c ≤
          ((Server.validPixels values).map Np.truncInt).count d) ∧
      (∀ c ∈ (Server.validPixels values).map Np.truncInt,
        ((Server.validPixels values).map Np.truncInt).count c =
          ((Server.validPixels values).map Np.truncInt).count d → d ≤ c) :=
  fun values lut d hd => Facts.dominant_spec values lut d hd

/-- Witness for C5: on pixels `[7, 5]` both classes are tied with count 1
and the smaller class code 5 is the dominant class. -/
theorem C5_dominant_class_tie_break_witness :
    (Server.categorical_conservative [Pixel.num 7, Pixel.num 5]
        Server.LUISA_DENSITY_MAP).2 = some 5 ∧
    (5 ∈ (Server.validPixels [Pixel.num 7, Pixel.num 5]).map Np.truncInt ∧
      (∀ c ∈ (Server.validPixels [Pixel.num 7, Pixel.num 5]).map Np.truncInt,
        ((Server.validPixels [Pixel.num 7, Pixel.num 5]).map
          Np.truncInt).count c ≤
          ((Server.validPixels [Pixel.num 7, Pixel.num 5]).map
            Np.truncInt).count 5) ∧
      (∀ c ∈ (Server.validPixels [Pixel.num 7, Pixel.num 5]).map Np.truncInt,
        ((Server.validPixels [Pixel.num 7, Pixel.num 5]).map
          Np.truncInt).count c =
          ((Server.validPixels [Pixel.num 7, Pixel.num 5]).map
            Np.truncInt).count 5 → 5 ≤ c)) :=
  ⟨by decide,
    C5_dominant_class_tie_break [Pixel.num 7, Pixel.num 5]
      Server.LUISA_DENSITY_MAP 5 (by decide)⟩

/-- C6: a null polygon or one with fewer than 3 points makes
`_polygon_to_geojson` raise (the spec's `InvalidInputError`); the raised
error escapes `query_density` to the request boundary instead of yielding
a geometry. -/
theorem C6_build_geometry_invalid_input :
    Server._polygon_to_geojson none = .error Server.polyInvalidMsg ∧
    (∀ cs : List Point, cs.length < 3 →
      Server._polygon_to_geojson (some cs) = .error Server.polyInvalidMsg) ∧
    (∀ (polygon : Option (List Point)) (jrc luisa : RasterRead) (e : String),
      Server._polygon_to_geojson polygon = .error e →
      Server.query_density polygon jrc luisa = .error e) := by
  refine ⟨rfl, ?_, ?_⟩
  · intro cs h
    simp [Server._polygon_to_geojson, h]
  · intro p j l e h
    exact Facts.query_density_with_error Server.LUISA_DENSITY_MAP p j l e h

/-- Witness for C6: the 1-point polygon `[(0, 0)]` is rejected. -/
theorem C6_build_geometry_invalid_input_witness :
    ([((0 : ℚ), (0 : ℚ))] : List Point).length < 3 ∧
    Server._polygon_to_geojson (some [((0 : ℚ), (0 : ℚ))]) =
      .error Server.polyInvalidMsg :=
  ⟨by decide,
    C6_build_geometry_invalid_input.2.1 [((0 : ℚ), (0 : ℚ))] (by decide)⟩

/-- C7: for a sequence of at least 3 points whose first and last points
differ, the builder returns the same geometry as for the explicitly
closed ring (the sequence with a copy of its first point appended); being
a pure function of an immutable list, it does not mutate its input. -/
theorem C7_build_geometry_closes_ring :
    ∀ (p : Point) (rest : List Point),
      3 ≤ (p :: rest).length →
      (p :: rest).getLast? ≠ some p →
      Server._polygon_to_geojson (some (p :: rest)) =
        Server._polygon_to_geojson (some ((p :: rest) ++ [p])) := by
  intro p rest h3 hne
  have hlen1 : ¬ (p :: rest).length < 3 := by omega
  have hlen2 : ¬ ((p :: rest) ++ [p]).length < 3 := by
    simp only [List.length_append, List.length_cons] at h3 ⊢
    omega
  have hlast : ((p :: rest) ++ [p]).getLast? = some p := by
    rw [List.getLast?_append_cons]
    rfl
  have hc1 : (p :: rest).head? ≠ (p :: rest).getLast? := by
    rw [List.head?_cons]
    exact fun he => hne he.symm
  have hc2 : ¬ ((p :: rest) ++ [p]).head? ≠ ((p :: rest) ++ [p]).getLast? := by
    rw [hlast, List.cons_append, List.head?_cons]
    exact fun hx => hx rfl
  have hL : Server._polygon_to_geojson (some (p :: rest)) =
      .ok ((p :: rest) ++ [p]) := by
    simp only [Server._polygon_to_geojson]
    rw [if_neg hlen1, if_pos hc1]
    rfl
  have hR : Server._polygon_to_geojson (some ((p :: rest) ++ [p])) =
      .ok ((p :: rest) ++ [p]) := by
    simp only [Server._polygon_to_geojson]
    rw [if_neg hlen2, if_neg hc2]
  rw [hL, hR]

/-- Witness for C7: the open triangle `[(0,0), (1,0), (0,1)]` builds the
same geometry as its explicitly closed ring. -/
theorem C7_build_geometry_closes_ring_witness :
    3 ≤ ([((0 : ℚ), (0 : ℚ)), ((1 : ℚ), (0 : ℚ)), ((0 : ℚ), (1 : ℚ))] :
      List Point).length ∧
    ([((0 : ℚ), (0 : ℚ)), ((1 : ℚ), (0 : ℚ)), ((0 : ℚ), (1 : ℚ))] :
      List Point).getLast? ≠ some ((0 : ℚ), (0 : ℚ)) ∧
    Server._polygon_to_geojson
        (some [((0 : ℚ), (0 : ℚ)), ((1 : ℚ), (0 : ℚ)), ((0 : ℚ), (1 : ℚ))]) =
      Server._polygon_to_geojson
        (some ([((0 : ℚ), (0 : ℚ)), ((1 : ℚ), (0 : ℚ)), ((0 : ℚ), (1 : ℚ))] ++
          [((0 : ℚ), (0 : ℚ))])) :=
  ⟨by decide, by decide,
    C7_build_geometry_closes_ring ((0 : ℚ), (0 : ℚ))
      [((1 : ℚ), (0 : ℚ)), ((0 : ℚ), (1 : ℚ))] (by decide) (by decide)⟩

/-- C8: when the raster's CRS is geographic — `EPSG:4326` or the
equivalent `WGS84` identifier — the reprojection step is the identity:
the geometry handed to masking is the input geometry unchanged, with no
coordinate transform applied. -/
theorem C8_reproject_identity_on_geographic :
    ∀ geom : List Point,
      Server._mask_with_reprojection (some "EPSG:4326") geom = .asIs geom ∧
      Server._mask_with_reprojection (some "WGS84") geom = .asIs geom := by
  intro geom
  constructor
  · simp [Server._mask_with_reprojection]
  · simp [Server._mask_with_reprojection]

/-- C9: the two source files implement the same system. Their geometry
building, reprojection, continuous statistics, categorical reduction and
reconciliation functions are equal; each file's `query_density` is the
common body instantiated with that file's `LUISA_DENSITY_MAP`; on every
request the two responses agree on `d_jrc_max`, `d_avg` and `luisa_class`
(and on the error case), so only `d_luisa_conservative` — and `d_popmax`
through `reconcile` — can differ, solely via the lookup table. -/
theorem C9_two_files_one_system :
    Server._polygon_to_geojson = GdalServer._polygon_to_geojson ∧
    Server._mask_with_reprojection = GdalServer._mask_with_reprojection ∧
    Server.continuous_stats = GdalServer.continuous_stats ∧
    Server.categorical_conservative = GdalServer.categorical_conservative ∧
    Server.reconcile = GdalServer.reconcile ∧
    Server.query_density_with = GdalServer.query_density_with ∧
    Server.query_density = Server.query_density_with Server.LUISA_DENSITY_MAP ∧
    GdalServer.query_density =
      GdalServer.query_density_with GdalServer.LUISA_DENSITY_MAP ∧
    (∀ (polygon : Option (List Point)) (jrc luisa : RasterRead),
      (Server.query_density polygon jrc luisa).map
          (fun r => (r.d_jrc_max, r.d_avg, r.luisa_class)) =
        (GdalServer.query_density polygon jrc luisa).map
          (fun r => (r.d_jrc_max, r.d_avg, r.luisa_class))) ∧
    (∀ (polygon : Option (List Point)) (jrc luisa : RasterRead),
      (Server.query_density polygon jrc luisa).map (fun r => r.d_popmax) =
        (Server.query_density polygon jrc luisa).map
          (fun r => Server.reconcile r.d_jrc_max r.d_luisa_conservative)) ∧
    (∀ (polygon : Option (List Point)) (jrc luisa : RasterRead),
      (GdalServer.query_density polygon jrc luisa).map
          (fun r => r.d_popmax) =
        (GdalServer.query_density polygon jrc luisa).map
          (fun r => GdalServer.reconcile r.d_jrc_max
            r.d_luisa_conservative)) := by
  refine ⟨rfl, rfl, rfl, rfl, rfl, rfl, rfl, rfl, ?_, ?_, ?_⟩
  · intro p j l
    exact Facts.query_density_with_lut_proj Server.LUISA_DENSITY_MAP
      GdalServer.LUISA_DENSITY_MAP p j l
  · intro p j l
    exact Facts.query_density_with_popmax Server.LUISA_DENSITY_MAP p j l
  · intro p j l
    exact Facts.query_density_with_popmax GdalServer.LUISA_DENSITY_MAP p j l

/-- C10: in every 200 response the numeric fields satisfy
`0 ≤ d_avg ≤ d_jrc_max`, `0 ≤ d_luisa_conservative`,
`d_popmax ≥ d_jrc_max`, `d_popmax ≥ d_luisa_conservative`, all four are
nonnegative, and `d_avg` falls back to `0.0` whenever `d_jrc_max` does. -/
theorem C10_response_numeric_invariants :
    ∀ (polygon : Option (List Point)) (jrc luisa : RasterRead)
      (r : Response),
      Server.query_density polygon jrc luisa = .ok r →
      0 ≤ r.d_avg ∧ r.d_avg ≤ r.d_jrc_max ∧ 0 ≤ r.d_jrc_max ∧
      0 ≤ r.d_luisa_conservative ∧ 0 ≤ r.d_popmax ∧
      r.d_jrc_max ≤ r.d_popmax ∧ r.d_luisa_conservative ≤ r.d_popmax ∧
      (r.d_jrc_max = 0 → r.d_avg = 0) := by
  intro p j l r h
  obtain ⟨hpop, hjrc, hluisa⟩ :=
    Facts.query_density_with_ok Server.LUISA_DENSITY_MAP p j l r h
  have hj : 0 ≤ r.d_jrc_max ∧ 0 ≤ r.d_avg ∧ r.d_avg ≤ r.d_jrc_max := by
    rcases hjrc with hz | hc
    · have h1 : r.d_jrc_max = 0 := congrArg Prod.fst hz
      have h2 : r.d_avg = 0 := congrArg Prod.snd hz
      rw [h1, h2]
      norm_num
    · have h1 : r.d_jrc_max = (Server.continuous_stats j.pixels).1 :=
        congrArg Prod.fst hc
      have h2 : r.d_avg = (Server.continuous_stats j.pixels).2 :=
        congrArg Prod.snd hc
      obtain ⟨b1, b2, b3⟩ := Facts.continuous_stats_bounds j.pixels
      rw [h1, h2]
      exact ⟨b1, b2, b3⟩
  have hl : 0 ≤ r.d_luisa_conservative := by
    rcases hluisa with hz | hc
    · have h1 : r.d_luisa_conservative = 0 := congrArg Prod.fst hz
      rw [h1]
    · have h1 : r.d_luisa_conservative =
          (Server.categorical_conservative l.pixels
            Server.LUISA_DENSITY_MAP).1 := congrArg Prod.fst hc
      rw [h1]
      exact Facts.categorical_conservative_fst_nonneg l.pixels _
  have hpm : r.d_popmax = max r.d_jrc_max r.d_luisa_conservative := hpop
  refine ⟨hj.2.1, hj.2.2, hj.1, hl, ?_, ?_, ?_, ?_⟩
  · rw [hpm]
    exact le_trans hj.1 (le_max_left _ _)
  · rw [hpm]
    exact le_max_left _ _
  · rw [hpm]
    exact le_max_right _ _
  · intro hz
    have hle := hj.2.2
    rw [hz] at hle
    exact le_antisymm hle hj.2.1

/-- Witness for C10: the all-defaults 200 response (both rasters absent)
satisfies every inequality. -/
theorem C10_response_numeric_invariants_witness :
    Server.query_density (some [(0, 0), (1, 0), (0, 1)])
        ⟨false, false, []⟩ ⟨false, false, []⟩ = .ok ⟨0, 0, 0, 0, none⟩ ∧
    ((0 : ℚ) ≤ 0 ∧ (0 : ℚ) ≤ 0 ∧ (0 : ℚ) ≤ 0 ∧ (0 : ℚ) ≤ 0 ∧
      (0 : ℚ) ≤ 0 ∧ (0 : ℚ) ≤ 0 ∧ (0 : ℚ) ≤ 0 ∧
      ((0 : ℚ) = 0 → (0 : ℚ) = 0)) :=
  ⟨by decide,
    C10_response_numeric_invariants (some [(0, 0), (1, 0), (0, 1)])
      ⟨false, false, []⟩ ⟨false, false, []⟩ ⟨0, 0, 0, 0, none⟩ (by decide)⟩
